import Mathlib

/-!
Verification development for the torchdynamo frame-conversion and
builtin-dispatch layer.  The definitions below are shallow embeddings of
`torchdynamo/variables/builtin.py`, `torchdynamo/convert_frame.py` and
`torchdynamo/testing.py`; parts of the repository that the claims depend on
but whose source is not available (the guard/cache machinery of
`eval_frame`/`guards.py`, `ConstantVariable.call_method`, container
unpacking, `TensorVariable.call_isinstance`) are modelled from the
specification and marked as such in their doc comments.
-/

namespace TD

/-! ## Abstract value model (variables/builtin.py and the variant set of spec section 3) -/

/-- Tensor dtypes needed by the claims (metadata captured at trace time). -/
inductive DType
  | float32
  | int64
deriving DecidableEq

/-- Python types as consulted by `isinstance`/`python_type` dispatch.
`numT` merges int and float (numeric literals are modelled as rationals). -/
inductive PyType
  | numT
  | boolT
  | strT
  | noneT
  | listT
  | tupleT
  | rangeT
  | tensorT
  | floatTensorT
  | builtinT
deriving DecidableEq

/-- The builtin/operator functions modelled from the sets appearing in
`BuiltinVariable._constant_fold_functions` and
`BuiltinVariable._fx_graph_functions` plus the per-function handlers the
claims mention (`min`, `max`, `tuple`, `list`, `range`, `isinstance`). -/
inductive BFn
  | add
  | sub
  | iadd
  | neg
  | minF
  | maxF
  | tupleF
  | listF
  | rangeF
  | isinstanceF
deriving DecidableEq

/-- Literal python values (compile-time constants). -/
inductive PyConst
  | num (q : ℚ)
  | boolV (b : Bool)
  | strV (s : String)
  | noneV
  | tupleV (xs : List PyConst)
  | listV (xs : List PyConst)
  | typeV (t : PyType)
  | funcV (f : BFn)

/-- One abstract value during tracing: the `VariableTracker` variants the
claims exercise.  `tensor` carries the proxy node index into the FX graph
plus the captured dtype/python-type metadata; containers mirror
`TupleVariable`/`ListVariable` (with their `mutable_local` flag);
`builtin` mirrors `BuiltinVariable`; `rangeVar` mirrors `RangeVariable`.
Sources/guards bookkeeping (`VariableTracker.propagate`) is not needed by
any claim and is omitted. -/
inductive Variable
  | constant (c : PyConst)
  | tensor (proxy : Nat) (dtype : Option DType) (pyType : PyType)
  | tupleVar (items : List Variable) (mutableLocal : Bool)
  | listVar (items : List Variable) (mutableLocal : Bool)
  | rangeVar (start stop step : Int)
  | builtin (f : BFn)

/-- Model of `isinstance(i, variables.TensorVariable)` as used by
`BuiltinVariable.tensor_args`. -/
def is_tensor_variable : Variable → Bool
  | .tensor _ _ _ => true
  | _ => false

mutual
/-- Model of `VariableTracker.is_python_constant` for the modelled variants:
`ConstantVariable` and `BuiltinVariable` are constants
(`BuiltinVariable.as_python_constant` returns `self.fn`); containers of
constants are constants.  Modelled from the spec: `asConstant` of container
variants (spec section 4.3) -- the container variable classes are not under
`src/`. -/
def is_python_constant : Variable → Bool
  | .constant _ => true
  | .builtin _ => true
  | .tupleVar xs _ => is_python_constant_list xs
  | .listVar xs _ => is_python_constant_list xs
  | .rangeVar _ _ _ => false
  | .tensor _ _ _ => false

def is_python_constant_list : List Variable → Bool
  | [] => true
  | x :: xs => is_python_constant x && is_python_constant_list xs
end

mutual
/-- Model of `VariableTracker.as_python_constant` for the modelled variants.
Modelled from the spec: `asConstant` "fails if not compile-time-constant"
(spec section 4.3); the container classes are not under `src/`. -/
def as_python_constant : Variable → Option PyConst
  | .constant c => some c
  | .builtin f => some (.funcV f)
  | .tupleVar xs _ => (as_python_constant_list xs).map .tupleV
  | .listVar xs _ => (as_python_constant_list xs).map .listV
  | .rangeVar _ _ _ => none
  | .tensor _ _ _ => none

def as_python_constant_list : List Variable → Option (List PyConst)
  | [] => some []
  | x :: xs =>
    match as_python_constant x, as_python_constant_list xs with
    | some c, some cs => some (c :: cs)
    | _, _ => none
end

/-- Model of `utils.check_constant_args`: every positional argument is a
compile-time constant.  Modelled from the spec: "all args literal"
(spec section 4.3); `utils.py` is not under `src/`.  Keyword arguments are
not modelled (no claim uses them). -/
def check_constant_args (args : List Variable) : Bool :=
  is_python_constant_list args

/-- Model of `BuiltinVariable.tensor_args`: some argument is a `TensorVariable`. -/
def tensor_args (args : List Variable) : Bool :=
  args.any is_tensor_variable

/-- Membership in `BuiltinVariable._constant_fold_functions` restricted to
the modelled function set: `min`, `max`, `tuple`, `list`,
`operator.add/sub/iadd/neg` are in the allow-list; `range` and
`isinstance` are not. -/
def can_constant_fold_through : BFn → Bool
  | .add => true
  | .sub => true
  | .iadd => true
  | .neg => true
  | .minF => true
  | .maxF => true
  | .tupleF => true
  | .listF => true
  | .rangeF => false
  | .isinstanceF => false

/-- Membership in `BuiltinVariable._fx_graph_functions` restricted to the
modelled function set: only the `operator` module entries are present. -/
def can_insert_in_graph : BFn → Bool
  | .add => true
  | .sub => true
  | .iadd => true
  | .neg => true
  | _ => false

/-- Model of `python_type` of the modelled variants (numeric constants share the
merged type `numT`). -/
def python_type : Variable → Option PyType
  | .constant c =>
    match c with
    | .num _ => some .numT
    | .boolV _ => some .boolT
    | .strV _ => some .strT
    | .noneV => some .noneT
    | .tupleV _ => some .tupleT
    | .listV _ => some .listT
    | .typeV _ => some .builtinT
    | .funcV _ => some .builtinT
  | .tensor _ _ t => some t
  | .tupleVar _ _ => some .tupleT
  | .listVar _ _ => some .listT
  | .rangeVar _ _ _ => some .rangeT
  | .builtin _ => some .builtinT

/-! ## The FX graph under construction -/

/-- Operators a graph node can carry: either one of the modelled builtin
functions (inserted by the generic graph branch of `call_function`) or the
torch calls emitted by `_call_min_max`. -/
inductive GOp
  | bfn (f : BFn)
  | clampMin (bound : PyConst)
  | clampMax (bound : PyConst)
  | maximum
  | minimum


/-- A proxied argument of a graph node (`proxy_args_kwargs`): a reference
to an earlier node or an inlined literal. -/
inductive GArg
  | node (i : Nat)
  | const (c : PyConst)


/-- One node of the FX graph being built (`OutputGraph.create_proxy`). -/
inductive GraphNode
  | placeholder
  | call (op : GOp) (args : List GArg)


/-- The part of the `InstructionTranslator` state `call_function` can
touch: the list of graph nodes emitted so far. -/
structure TraceState where
  nodes : List GraphNode

/-- Model of `arg.as_proxy()` as performed by `proxy_args_kwargs`: tensors become
node references, constants are inlined; other variants are not proxyable
(in the source this surfaces as `NotImplementedError`, caught by the graph
branch and turned into `unimplemented`). -/
def as_proxy_arg : Variable → Option GArg
  | .tensor p _ _ => some (.node p)
  | .constant c => some (.const c)
  | _ => none

def as_proxy_args (args : List Variable) : Option (List GArg) :=
  match args with
  | [] => some []
  | x :: xs =>
    match as_proxy_arg x, as_proxy_args xs with
    | some g, some gs => some (g :: gs)
    | _, _ => none

/-- dtype metadata of the tensor produced by a graph op: taken from the
first tensor argument.  Modelled from the spec: `TensorVariable.create`
computes example-value metadata; `variables/tensor.py` is not under
`src/`. -/
def result_dtype (args : List Variable) : Option DType :=
  match args with
  | [] => none
  | .tensor _ d _ :: _ => d
  | _ :: rest => result_dtype rest

/-- Append one `call_function` node to the graph and return the tensor
variable proxying it (`tx.output.create_proxy` + `TensorVariable.create`). -/
def create_proxy (op : GOp) (gargs : List GArg) (dtype : Option DType)
    (s : TraceState) : Variable × TraceState :=
  (.tensor s.nodes.length dtype .tensorT, ⟨s.nodes ++ [.call op gargs]⟩)

/-! ## Outcomes of a builtin call -/

/-- Result of `BuiltinVariable.call_function`: a produced variable, an
`Unsupported` signal (`unimplemented`), deferral to the generic
`VariableTracker.call_function` path, or an ordinary python exception
propagating out. -/
inductive CallResult
  | ok (v : Variable)
  | unsupported
  | general
  | pyError

/-- Outcome of invoking one per-function handler (`call_<name>`): a value,
python `None` (falling through), an `Unsupported` signal, or an ordinary
python exception. -/
inductive HandlerOut
  | val (v : Variable)
  | noneRet
  | unsup
  | err

/-- Model of `isinstance(x, variables.ConstantVariable)` (the exact variant check,
unlike `is_python_constant`). -/
def is_constant_variable : Variable → Bool
  | .constant _ => true
  | _ => false

/-- Model of `VariableTracker.unpack_var_sequence` for the modelled variants.
Modelled from the spec: `unpackSequence` of container variants
(spec section 4.3) -- the container/constant variable classes are not under
`src/`.  Ranges, strings and the remaining variants are left without
unpacking in this model. -/
def unpack_var_sequence : Variable → Option (List Variable)
  | .tupleVar xs _ => some xs
  | .listVar xs _ => some xs
  | .constant (.tupleV cs) => some (cs.map .constant)
  | .constant (.listV cs) => some (cs.map .constant)
  | _ => none

/-- A literal usable as a python `int` index/argument (ints and bools). -/
def as_int : PyConst → Option Int
  | .num q => if q.den = 1 then some q.num else none
  | .boolV b => some (if b then 1 else 0)
  | _ => none

/-- The underlying python function applied to literal arguments, as done
by the constant-folding branch (`self.as_python_constant()(*args)`), for
the modelled functions and literal shapes; `none` stands for call shapes
outside the modelled fragment (or that raise). -/
def python_call : BFn → List PyConst → Option PyConst
  | .add, [.num a, .num b] => some (.num (a + b))
  | .add, [.strV a, .strV b] => some (.strV (a ++ b))
  | .add, [.tupleV a, .tupleV b] => some (.tupleV (a ++ b))
  | .add, [.listV a, .listV b] => some (.listV (a ++ b))
  | .iadd, [.num a, .num b] => some (.num (a + b))
  | .iadd, [.strV a, .strV b] => some (.strV (a ++ b))
  | .iadd, [.tupleV a, .tupleV b] => some (.tupleV (a ++ b))
  | .iadd, [.listV a, .listV b] => some (.listV (a ++ b))
  | .sub, [.num a, .num b] => some (.num (a - b))
  | .neg, [.num a] => some (.num (-a))
  | .minF, [.num a, .num b] => some (.num (min a b))
  | .maxF, [.num a, .num b] => some (.num (max a b))
  | .tupleF, [] => some (.tupleV [])
  | .tupleF, [.tupleV xs] => some (.tupleV xs)
  | .tupleF, [.listV xs] => some (.tupleV xs)
  | .listF, [] => some (.listV [])
  | .listF, [.tupleV xs] => some (.listV xs)
  | .listF, [.listV xs] => some (.listV xs)
  | _, _ => none

/-! ## Per-function handlers (`call_<name>` methods of `BuiltinVariable`) -/

/-- Modelled from the spec: `ConstantVariable.call_method` folds binary
arithmetic eagerly on literal operands (constant folding of expressions of
literals, spec section 8); `variables/constant.py` is not under `src/`.
Combinations outside the modelled fragment signal `unimplemented`. -/
def const_call_method_binary (f : BFn) (a b : PyConst) : HandlerOut :=
  match f, a, b with
  | .add, .num x, .num y => .val (.constant (.num (x + y)))
  | .iadd, .num x, .num y => .val (.constant (.num (x + y)))
  | .sub, .num x, .num y => .val (.constant (.num (x - y)))
  | _, _, _ => .unsup

/-- Model of `call_add` / `call_sub` / `call_iadd`: delegate to
`args[0].call_method(tx, "__<op>__", args[1:], kwargs)`.  An empty or
overlong argument list raises an ordinary python error (`args[0]` index
error / `TypeError` in the bound method). -/
def call_method_binary (f : BFn) (args : List Variable) : HandlerOut :=
  match args with
  | [] => .err
  | [.constant a, .constant b] => const_call_method_binary f a b
  | [_, _] => .unsup
  | _ => .err

/-- Model of `BuiltinVariable._call_min_max` (shared by `call_min`/`call_max`): on a
tensor operand, rewrite to `torch.clamp` (constant bound) or
`torch.maximum`/`torch.minimum` (tensor bound), emitting one graph node;
otherwise `unimplemented`.  The torch-call emission goes through
`TorchVariable.call_function`, which is not under `src/`; it is modelled
from the spec as appending one call node for the rewritten op. -/
def _call_min_max (f : BFn) (a0 b0 : Variable) (s : TraceState) :
    HandlerOut × TraceState :=
  if tensor_args [a0, b0] then
    let a := if is_tensor_variable a0 then a0 else b0
    let b := if is_tensor_variable a0 then b0 else a0
    if is_python_constant b then
      match as_python_constant b with
      | some c =>
        let op := if f = .maxF then GOp.clampMin c else GOp.clampMax c
        match as_proxy_arg a with
        | some ga =>
          let (v, s2) := create_proxy op [ga] (result_dtype [a]) s
          (.val v, s2)
        | none => (.unsup, s)
      | none => (.unsup, s)
    else
      let op := if f = .maxF then GOp.maximum else GOp.minimum
      match as_proxy_arg a, as_proxy_arg b with
      | some ga, some gb =>
        let (v, s2) := create_proxy op [ga, gb] (result_dtype [a, b]) s
        (.val v, s2)
      | _, _ => (.unsup, s)
  else (.unsup, s)

/-- Model of `BuiltinVariable._call_iter_tuple_list` (shared by
`call_tuple`/`call_list`): with no argument, a fresh empty mutable
container; with an unpackable argument, a mutable container of the
unpacked items; otherwise fall through (python `None`). -/
def _call_iter_tuple_list (f : BFn) (obj : Option Variable) : HandlerOut :=
  match obj with
  | none =>
    if f = .listF then .val (.listVar [] true) else .val (.tupleVar [] true)
  | some o =>
    match unpack_var_sequence o with
    | some items =>
      if f = .listF then .val (.listVar items true) else .val (.tupleVar items true)
    | none => .noneRet

/-- Model of `BuiltinVariable.call_range`: on all-constant arguments produce a
`RangeVariable` with python `range` semantics; otherwise fall through. -/
def call_range (args : List Variable) : HandlerOut :=
  if check_constant_args args then
    match args.map as_python_constant with
    | [some c] =>
      match as_int c with
      | some n => .val (.rangeVar 0 n 1)
      | none => .err
    | [some c1, some c2] =>
      match as_int c1, as_int c2 with
      | some a, some b => .val (.rangeVar a b 1)
      | _, _ => .err
    | [some c1, some c2, some c3] =>
      match as_int c1, as_int c2, as_int c3 with
      | some a, some b, some st => if st = 0 then .err else .val (.rangeVar a b st)
      | _, _, _ => .err
    | _ => .err
  else .noneRet

/-- Modelled from the spec: `TensorVariable.call_isinstance` answers from
the captured concrete type/dtype metadata ("`isinstance` against a
graph-bound value must consult concrete captured type/dtype metadata",
spec section 4.3); `variables/tensor.py` is not under `src/`. -/
def tensor_call_isinstance (ty : PyType) (d : DType) (target : PyType) : Bool :=
  match target with
  | .tensorT => ty = .tensorT
  | .floatTensorT => ty = .tensorT && d = .float32
  | t => ty = t

/-- Model of `issubclass` on the modelled python types (no nontrivial subclass
relations among them). -/
def py_issubclass (a b : PyType) : Bool := a = b

/-- Model of `BuiltinVariable.call_isinstance`: a tensor argument with known dtype
metadata is answered by `arg.call_isinstance` on the captured metadata;
otherwise `issubclass(arg.python_type(), isinstance_type)` with the
`TypeError` fallback `arg_type is isinstance_type`.  (The
`UserDefinedObjectVariable` member-descriptor graph-break special case
concerns a variant outside the modelled set.) -/
def call_isinstance (arg tyArg : Variable) : HandlerOut :=
  match python_type arg with
  | none => .err
  | some argTy =>
    match as_python_constant tyArg with
    | none => .err
    | some tc =>
      match arg, tc with
      | .tensor _ (some d) ty, .typeV target =>
        .val (.constant (.boolV (tensor_call_isinstance ty d target)))
      | .tensor _ (some _) _, _ => .err
      | _, .typeV target => .val (.constant (.boolV (py_issubclass argTy target)))
      | _, _ => .val (.constant (.boolV false))

/-- Model of `getattr(self, f"call_{...}")` plus the `inspect.signature(...).bind`
check of `call_function`: `none` when there is no handler for the function
or its signature rejects the argument count. -/
def call_handler : BFn → List Variable → TraceState →
    Option (HandlerOut × TraceState)
  | .add, args, s => some (call_method_binary .add args, s)
  | .sub, args, s => some (call_method_binary .sub args, s)
  | .iadd, args, s => some (call_method_binary .iadd args, s)
  | .neg, _, _ => none
  | .minF, [a, b], s => some (_call_min_max .minF a b s)
  | .minF, _, _ => none
  | .maxF, [a, b], s => some (_call_min_max .maxF a b s)
  | .maxF, _, _ => none
  | .tupleF, [], s => some (_call_iter_tuple_list .tupleF none, s)
  | .tupleF, [o], s => some (_call_iter_tuple_list .tupleF (some o), s)
  | .tupleF, _, _ => none
  | .listF, [], s => some (_call_iter_tuple_list .listF none, s)
  | .listF, [o], s => some (_call_iter_tuple_list .listF (some o), s)
  | .listF, _, _ => none
  | .rangeF, args, s => some (call_range args, s)
  | .isinstanceF, [a, t], s => some (call_isinstance a t, s)
  | .isinstanceF, _, _ => none

/-- The constant-folding branch of `call_function`:
`ConstantVariable(self.as_python_constant()(*[x.as_python_constant() ...]))`. -/
def constant_fold (fn : BFn) (args : List Variable) : CallResult :=
  match as_python_constant_list args with
  | some cs =>
    match python_call fn cs with
    | some c => .ok (.constant c)
    | none => .pyError
  | none => .pyError

/-- The graph-insertion branch of `call_function`: the `iadd`-of-constant
swap workaround, `proxy_args_kwargs`, `create_proxy` and
`TensorVariable.create`, with `NotImplementedError` from proxying
downgraded to `unimplemented` ("partial tensor op"). -/
def emit_graph_node (f2 : BFn) (l : List Variable) (s : TraceState) :
    CallResult × TraceState :=
  match as_proxy_args l with
  | some gargs =>
    let (v, s2) := create_proxy (.bfn f2) gargs (result_dtype l) s
    (.ok v, s2)
  | none => (.unsupported, s)

def insert_in_graph_branch (fn : BFn) (args : List Variable) (s : TraceState) :
    CallResult × TraceState :=
  let fa : BFn × List Variable :=
    match fn, args with
    | .iadd, [a, b] => if is_constant_variable a then (.add, [b, a]) else (.iadd, [a, b])
    | _, _ => (fn, args)
  emit_graph_node fa.1 fa.2 s

/-- Model of `BuiltinVariable.call_function` for the modelled function set,
translated branch by branch from the source: (1) graph insertion when the
function is in the FX-graph set and some argument is a tensor; (2)
otherwise the per-function handler if present and arity-compatible,
returning its non-`None` result, swallowing its `Unsupported` signal only
when a constant fold is available; (3) the constant fold when the function
is allow-listed and all arguments are constants; (4) otherwise deferral to
the generic `VariableTracker.call_function` path.  (The
`operator.getitem`-on-bool-tensor and `int`-of-`DynamicShapeVariable`
special cases concern functions and variants outside the modelled set.) -/
def call_function (fn : BFn) (args : List Variable) (s : TraceState) :
    CallResult × TraceState :=
  let constant_args := check_constant_args args
  let has_constant_handler := can_constant_fold_through fn && constant_args
  if can_insert_in_graph fn && tensor_args args then
    insert_in_graph_branch fn args s
  else
    match call_handler fn args s with
    | some (.val v, s2) => (.ok v, s2)
    | some (.noneRet, s2) =>
      if has_constant_handler then (constant_fold fn args, s2) else (.general, s2)
    | some (.unsup, s2) =>
      if has_constant_handler then (constant_fold fn args, s2) else (.unsupported, s2)
    | some (.err, s2) => (.pyError, s2)
    | none =>
      if has_constant_handler then (constant_fold fn args, s) else (.general, s)

/-! ## Helper lemmas about the builtin dispatch model -/

theorem is_tensor_eq_false_of_const {x : Variable}
    (h : is_python_constant x = true) : is_tensor_variable x = false := by
  cases x <;> simp_all [is_python_constant, is_tensor_variable]

theorem tensor_args_eq_false_of_const {args : List Variable}
    (h : check_constant_args args = true) : tensor_args args = false := by
  induction args with
  | nil => rfl
  | cons x xs ih =>
    simp only [check_constant_args, is_python_constant_list, Bool.and_eq_true] at h
    simp only [tensor_args, List.any_cons, Bool.or_eq_false_iff]
    exact ⟨is_tensor_eq_false_of_const h.1, ih h.2⟩

theorem as_python_constant_list_map_constant (cs : List PyConst) :
    as_python_constant_list (cs.map .constant) = some cs := by
  induction cs with
  | nil => rfl
  | cons c cs ih => simp [as_python_constant_list, as_python_constant, ih]

theorem as_python_constant_list_length {args : List Variable} {cs : List PyConst}
    (h : as_python_constant_list args = some cs) : cs.length = args.length := by
  induction args generalizing cs with
  | nil => simp [as_python_constant_list] at h; simp [← h]
  | cons x xs ih =>
    simp only [as_python_constant_list] at h
    cases hx : as_python_constant x with
    | none => rw [hx] at h; exact absurd h (by simp)
    | some c =>
      rw [hx] at h
      cases hxs : as_python_constant_list xs with
      | none => rw [hxs] at h; exact absurd h (by simp)
      | some cs2 =>
        rw [hxs] at h
        cases h
        simp [ih hxs]

theorem python_call_binop_arity {f : BFn} (hf : f = .add ∨ f = .sub ∨ f = .iadd)
    {cs : List PyConst} (h : cs.length ≠ 2) : python_call f cs = none := by
  rcases hf with rfl | rfl | rfl <;>
    (match cs, h with
     | [], _ => rfl
     | [c], _ => cases c <;> rfl
     | [c1, c2], h => exact absurd rfl h
     | c1 :: c2 :: c3 :: rest, _ => cases c1 <;> cases c2 <;> rfl)

theorem call_method_binary_two (f : BFn) (x y : Variable) :
    (∃ a b, x = .constant a ∧ y = .constant b) ∨
      call_method_binary f [x, y] = .unsup := by
  cases x <;> cases y <;> simp [call_method_binary]

theorem const_call_method_binary_agrees (f : BFn) (a b c : PyConst)
    (hc : python_call f [a, b] = some c) :
    const_call_method_binary f a b = .unsup ∨
      const_call_method_binary f a b = .val (.constant c) := by
  cases f <;> cases a <;> cases b <;>
    simp_all [const_call_method_binary, python_call]

theorem insert_in_graph_branch_spec (fn : BFn) (args : List Variable)
    (s : TraceState) :
    (∃ v s2, insert_in_graph_branch fn args s = (.ok v, s2) ∧
       s2.nodes.length = s.nodes.length + 1) ∨
    insert_in_graph_branch fn args s = (.unsupported, s) := by
  have h : ∀ (f2 : BFn) (l : List Variable),
      (∃ v s2, emit_graph_node f2 l s = (.ok v, s2) ∧
         s2.nodes.length = s.nodes.length + 1) ∨
      emit_graph_node f2 l s = (.unsupported, s) := by
    intro f2 l
    unfold emit_graph_node
    cases hp : as_proxy_args l with
    | none => exact Or.inr rfl
    | some gargs => exact Or.inl ⟨_, _, rfl, by simp [create_proxy]⟩
  exact h _ _

theorem call_function_binop_fold (f : BFn) (hf : f = .add ∨ f = .sub ∨ f = .iadd)
    (args : List Variable) (s : TraceState) (cs : List PyConst) (c : PyConst)
    (hgraph : (can_insert_in_graph f && tensor_args args) = false)
    (hhc : (can_constant_fold_through f && check_constant_args args) = true)
    (hcs : as_python_constant_list args = some cs)
    (hc : python_call f cs = some c) :
    ∃ v, call_function f args s = (.ok v, s) ∧ as_python_constant v = some c := by
  have hlen := as_python_constant_list_length hcs
  rcases args with _ | ⟨x, _ | ⟨y, _ | ⟨z, rest⟩⟩⟩
  · have h0 : cs.length = 0 := by simpa using hlen
    rw [python_call_binop_arity hf (by omega)] at hc
    exact Option.noConfusion hc
  · have h1 : cs.length = 1 := by simpa using hlen
    rw [python_call_binop_arity hf (by omega)] at hc
    exact Option.noConfusion hc
  · rcases call_method_binary_two f x y with ⟨a, b, rfl, rfl⟩ | hunsup
    · have hcs2 : some [a, b] = some cs := by
        rw [← hcs]; rfl
      injection hcs2 with hcs2
      subst hcs2
      rcases const_call_method_binary_agrees f a b c hc with hu | hv <;>
        rcases hf with rfl | rfl | rfl
      · exact ⟨.constant c, by
          simp [call_function, hgraph, call_handler, call_method_binary, hu,
            hhc, constant_fold, hcs, hc], rfl⟩
      · exact ⟨.constant c, by
          simp [call_function, hgraph, call_handler, call_method_binary, hu,
            hhc, constant_fold, hcs, hc], rfl⟩
      · exact ⟨.constant c, by
          simp [call_function, hgraph, call_handler, call_method_binary, hu,
            hhc, constant_fold, hcs, hc], rfl⟩
      · exact ⟨.constant c, by
          simp [call_function, hgraph, call_handler, call_method_binary, hv], rfl⟩
      · exact ⟨.constant c, by
          simp [call_function, hgraph, call_handler, call_method_binary, hv], rfl⟩
      · exact ⟨.constant c, by
          simp [call_function, hgraph, call_handler, call_method_binary, hv], rfl⟩
    · rcases hf with rfl | rfl | rfl <;>
        exact ⟨.constant c, by
          simp [call_function, hgraph, call_handler, hunsup, hhc,
            constant_fold, hcs, hc], rfl⟩
  · have h3 : cs.length = rest.length + 3 := by simpa using hlen
    rw [python_call_binop_arity hf (by omega)] at hc
    exact Option.noConfusion hc

/-! ## Claim theorems: builtin dispatch (C1, C2, C7) -/

/-- C1 counterexample: `tuple()` is a constant-foldable call with
all-constant arguments, yet `call_function` does NOT fold it first: the
per-function handler runs first and returns a fresh mutable
`TupleVariable`, which differs from the folded `ConstantVariable` that
the claimed fold-first order would produce. -/
theorem call_function_fold_not_first :
    can_constant_fold_through .tupleF = true ∧
    check_constant_args ([] : List Variable) = true ∧
    call_function .tupleF [] ⟨[]⟩ = (.ok (.tupleVar [] true), ⟨[]⟩) ∧
    constant_fold .tupleF [] = .ok (.constant (.tupleV [])) ∧
    Variable.tupleVar [] true ≠ Variable.constant (.tupleV []) :=
  ⟨rfl, rfl, rfl, rfl, fun h => Variable.noConfusion h⟩

/-- C1 (amended): the dispatch order of `BuiltinVariable.call_function`
is: first, if the function is a graphable primitive and at least one
argument is graph-bound, a graph node is emitted (or the call is declared
unsupported); else the per-function specialized handler is tried and its
non-`None` result returned; constant folding happens only after the
handler produced no result (the handler is absent, fell through, or
raised the unsupported signal while a fold was available); a handler
unsupported signal with no fold available propagates; else the general
call path is used. -/
theorem call_function_dispatch_order (fn : BFn) (args : List Variable)
    (s : TraceState) :
    ((can_insert_in_graph fn && tensor_args args) = true →
      (∃ v s2, call_function fn args s = (.ok v, s2) ∧
         s2.nodes.length = s.nodes.length + 1) ∨
      call_function fn args s = (.unsupported, s)) ∧
    ((can_insert_in_graph fn && tensor_args args) = false →
      (∀ v s2, call_handler fn args s = some (.val v, s2) →
         call_function fn args s = (.ok v, s2)) ∧
      (∀ s2, call_handler fn args s = some (.noneRet, s2) →
         (can_constant_fold_through fn && check_constant_args args) = true →
         call_function fn args s = (constant_fold fn args, s2)) ∧
      (∀ s2, call_handler fn args s = some (.noneRet, s2) →
         (can_constant_fold_through fn && check_constant_args args) = false →
         call_function fn args s = (.general, s2)) ∧
      (∀ s2, call_handler fn args s = some (.unsup, s2) →
         (can_constant_fold_through fn && check_constant_args args) = true →
         call_function fn args s = (constant_fold fn args, s2)) ∧
      (∀ s2, call_handler fn args s = some (.unsup, s2) →
         (can_constant_fold_through fn && check_constant_args args) = false →
         call_function fn args s = (.unsupported, s2)) ∧
      (call_handler fn args s = none →
         (can_constant_fold_through fn && check_constant_args args) = true →
         call_function fn args s = (constant_fold fn args, s)) ∧
      (call_handler fn args s = none →
         (can_constant_fold_through fn && check_constant_args args) = false →
         call_function fn args s = (.general, s))) := by
  constructor
  · intro hg
    simp only [call_function, hg, if_true]
    exact insert_in_graph_branch_spec fn args s
  · intro hg
    refine ⟨?_, ?_, ?_, ?_, ?_, ?_, ?_⟩
    · intro v s2 h
      simp [call_function, hg, h]
    · intro s2 h hf
      simp [call_function, hg, h, hf]
    · intro s2 h hf
      simp [call_function, hg, h, hf]
    · intro s2 h hf
      simp [call_function, hg, h, hf]
    · intro s2 h hf
      simp [call_function, hg, h, hf]
    · intro h hf
      simp [call_function, hg, h, hf]
    · intro h hf
      simp [call_function, hg, h, hf]

/-- C1 witness: concrete instantiations of the amended dispatch order --
the `tuple()` call is not a graph insertion, its handler returns the
empty mutable tuple, and `call_function` returns exactly that; and
`tuple(5)` is a reachable fall-through case (the handler returns `None`
on the unpackable-free argument) with a fold available, where
`call_function` dispatches to the constant-fold branch. -/
theorem call_function_dispatch_order_witness :
    (can_insert_in_graph .tupleF && tensor_args []) = false ∧
    call_handler .tupleF [] ⟨[]⟩ = some (.val (.tupleVar [] true), ⟨[]⟩) ∧
    call_function .tupleF [] ⟨[]⟩ = (.ok (.tupleVar [] true), ⟨[]⟩) ∧
    (can_insert_in_graph .tupleF
      && tensor_args [.constant (.num 5)]) = false ∧
    call_handler .tupleF [.constant (.num 5)] ⟨[]⟩ = some (.noneRet, ⟨[]⟩) ∧
    (can_constant_fold_through .tupleF
      && check_constant_args [.constant (.num 5)]) = true ∧
    call_function .tupleF [.constant (.num 5)] ⟨[]⟩
      = (constant_fold .tupleF [.constant (.num 5)], ⟨[]⟩) :=
  ⟨rfl, rfl,
    ((call_function_dispatch_order .tupleF [] ⟨[]⟩).2 rfl).1
      (.tupleVar [] true) ⟨[]⟩ rfl,
    rfl, rfl, rfl,
    ((call_function_dispatch_order .tupleF [.constant (.num 5)] ⟨[]⟩).2
      rfl).2.1 ⟨[]⟩ rfl rfl⟩

/-- C2 counterexample: `tuple()` has all-constant arguments and `tuple`
is in the allow-listed pure-function set, yet the dispatcher produces the
handler result -- a mutable `TupleVariable`, not a constant abstract
value (`ConstantVariable`). -/
theorem call_function_constant_call_not_constant_variable :
    can_constant_fold_through .tupleF = true ∧
    check_constant_args ([] : List Variable) = true ∧
    call_function .tupleF [] ⟨[]⟩ = (.ok (.tupleVar [] true), ⟨[]⟩) ∧
    is_constant_variable (.tupleVar [] true) = false :=
  ⟨rfl, rfl, rfl, rfl⟩

/-- C2 (amended): for every builtin call whose arguments are all
compile-time constants and whose function is in the allow-listed
pure-function set, whenever the underlying python application is defined
(`python_call fn cs = some c`), the dispatcher produces an abstract value
whose python value equals that direct application, and it emits no graph
node (the trace state is unchanged); the produced value is the folded
`ConstantVariable` except when a specialized handler intercepts with an
equivalent container/specialized variant. -/
theorem call_function_constant_fold_value (fn : BFn) (args : List Variable)
    (s : TraceState) (cs : List PyConst) (c : PyConst)
    (hconst : check_constant_args args = true)
    (hfold : can_constant_fold_through fn = true)
    (hcs : as_python_constant_list args = some cs)
    (hc : python_call fn cs = some c) :
    ∃ v, call_function fn args s = (.ok v, s) ∧ as_python_constant v = some c := by
  have hten : tensor_args args = false := tensor_args_eq_false_of_const hconst
  have hgraph : (can_insert_in_graph fn && tensor_args args) = false := by
    rw [hten, Bool.and_false]
  have hhc : (can_constant_fold_through fn && check_constant_args args) = true := by
    rw [hfold, hconst]; rfl
  cases fn with
  | add => exact call_function_binop_fold .add (Or.inl rfl) args s cs c hgraph hhc hcs hc
  | sub => exact call_function_binop_fold .sub (Or.inr (Or.inl rfl)) args s cs c hgraph hhc hcs hc
  | iadd => exact call_function_binop_fold .iadd (Or.inr (Or.inr rfl)) args s cs c hgraph hhc hcs hc
  | neg =>
    exact ⟨.constant c, by
      simp [call_function, hgraph, call_handler, hhc, constant_fold, hcs, hc], rfl⟩
  | rangeF => exact absurd hfold (by simp [can_constant_fold_through])
  | isinstanceF => exact absurd hfold (by simp [can_constant_fold_through])
  | minF =>
    rcases args with _ | ⟨x, _ | ⟨y, _ | ⟨z, rest⟩⟩⟩ <;>
      exact ⟨.constant c, by
        simp [call_function, hgraph, call_handler, _call_min_max, hten, hhc,
          constant_fold, hcs, hc], rfl⟩
  | maxF =>
    rcases args with _ | ⟨x, _ | ⟨y, _ | ⟨z, rest⟩⟩⟩ <;>
      exact ⟨.constant c, by
        simp [call_function, hgraph, call_handler, _call_min_max, hten, hhc,
          constant_fold, hcs, hc], rfl⟩
  | tupleF =>
    rcases args with _ | ⟨o, _ | ⟨y, rest⟩⟩
    · have hcs0 : some ([] : List PyConst) = some cs := by rw [← hcs]; rfl
      injection hcs0 with hcs0
      subst hcs0
      have hc0 : some (PyConst.tupleV []) = some c := by rw [← hc]; rfl
      injection hc0 with hc0
      subst hc0
      exact ⟨.tupleVar [] true, by
        simp [call_function, hgraph, call_handler, _call_iter_tuple_list], rfl⟩
    · cases o with
      | constant cc =>
        have hcs1 : some [cc] = some cs := by rw [← hcs]; rfl
        injection hcs1 with hcs1
        subst hcs1
        cases cc
        case tupleV xs =>
          have hc1 : some (PyConst.tupleV xs) = some c := by rw [← hc]; rfl
          injection hc1 with hc1
          subst hc1
          exact ⟨.tupleVar (xs.map .constant) true, by
            simp [call_function, hgraph, call_handler, _call_iter_tuple_list,
              unpack_var_sequence],
            by simp [as_python_constant, as_python_constant_list_map_constant]⟩
        case listV xs =>
          have hc1 : some (PyConst.tupleV xs) = some c := by rw [← hc]; rfl
          injection hc1 with hc1
          subst hc1
          exact ⟨.tupleVar (xs.map .constant) true, by
            simp [call_function, hgraph, call_handler, _call_iter_tuple_list,
              unpack_var_sequence],
            by simp [as_python_constant, as_python_constant_list_map_constant]⟩
        all_goals exact ⟨.constant c, by
          simp [call_function, hgraph, call_handler, _call_iter_tuple_list,
            unpack_var_sequence, hhc, constant_fold, hcs, hc], rfl⟩
      | tupleVar xs m =>
        cases hxs : as_python_constant_list xs with
        | none => simp [as_python_constant_list, as_python_constant, hxs] at hcs
        | some xsc =>
          have hcs1 : some [PyConst.tupleV xsc] = some cs := by
            rw [← hcs]; simp [as_python_constant_list, as_python_constant, hxs]
          injection hcs1 with hcs1
          subst hcs1
          have hc1 : some (PyConst.tupleV xsc) = some c := by rw [← hc]; rfl
          injection hc1 with hc1
          subst hc1
          exact ⟨.tupleVar xs true, by
            simp [call_function, hgraph, call_handler, _call_iter_tuple_list,
              unpack_var_sequence],
            by simp [as_python_constant, hxs]⟩
      | listVar xs m =>
        cases hxs : as_python_constant_list xs with
        | none => simp [as_python_constant_list, as_python_constant, hxs] at hcs
        | some xsc =>
          have hcs1 : some [PyConst.listV xsc] = some cs := by
            rw [← hcs]; simp [as_python_constant_list, as_python_constant, hxs]
          injection hcs1 with hcs1
          subst hcs1
          have hc1 : some (PyConst.tupleV xsc) = some c := by rw [← hc]; rfl
          injection hc1 with hc1
          subst hc1
          exact ⟨.tupleVar xs true, by
            simp [call_function, hgraph, call_handler, _call_iter_tuple_list,
              unpack_var_sequence],
            by simp [as_python_constant, hxs]⟩
      | builtin f =>
        exact ⟨.constant c, by
          simp [call_function, hgraph, call_handler, _call_iter_tuple_list,
            unpack_var_sequence, hhc, constant_fold, hcs, hc], rfl⟩
      | rangeVar a b st =>
        simp [check_constant_args, is_python_constant_list, is_python_constant] at hconst
      | tensor p d t =>
        simp [check_constant_args, is_python_constant_list, is_python_constant] at hconst
    · exact ⟨.constant c, by
        simp [call_function, hgraph, call_handler, hhc, constant_fold, hcs, hc], rfl⟩
  | listF =>
    rcases args with _ | ⟨o, _ | ⟨y, rest⟩⟩
    · have hcs0 : some ([] : List PyConst) = some cs := by rw [← hcs]; rfl
      injection hcs0 with hcs0
      subst hcs0
      have hc0 : some (PyConst.listV []) = some c := by rw [← hc]; rfl
      injection hc0 with hc0
      subst hc0
      exact ⟨.listVar [] true, by
        simp [call_function, hgraph, call_handler, _call_iter_tuple_list], rfl⟩
    · cases o with
      | constant cc =>
        have hcs1 : some [cc] = some cs := by rw [← hcs]; rfl
        injection hcs1 with hcs1
        subst hcs1
        cases cc
        case tupleV xs =>
          have hc1 : some (PyConst.listV xs) = some c := by rw [← hc]; rfl
          injection hc1 with hc1
          subst hc1
          exact ⟨.listVar (xs.map .constant) true, by
            simp [call_function, hgraph, call_handler, _call_iter_tuple_list,
              unpack_var_sequence],
            by simp [as_python_constant, as_python_constant_list_map_constant]⟩
        case listV xs =>
          have hc1 : some (PyConst.listV xs) = some c := by rw [← hc]; rfl
          injection hc1 with hc1
          subst hc1
          exact ⟨.listVar (xs.map .constant) true, by
            simp [call_function, hgraph, call_handler, _call_iter_tuple_list,
              unpack_var_sequence],
            by simp [as_python_constant, as_python_constant_list_map_constant]⟩
        all_goals exact ⟨.constant c, by
          simp [call_function, hgraph, call_handler, _call_iter_tuple_list,
            unpack_var_sequence, hhc, constant_fold, hcs, hc], rfl⟩
      | tupleVar xs m =>
        cases hxs : as_python_constant_list xs with
        | none => simp [as_python_constant_list, as_python_constant, hxs] at hcs
        | some xsc =>
          have hcs1 : some [PyConst.tupleV xsc] = some cs := by
            rw [← hcs]; simp [as_python_constant_list, as_python_constant, hxs]
          injection hcs1 with hcs1
          subst hcs1
          have hc1 : some (PyConst.listV xsc) = some c := by rw [← hc]; rfl
          injection hc1 with hc1
          subst hc1
          exact ⟨.listVar xs true, by
            simp [call_function, hgraph, call_handler, _call_iter_tuple_list,
              unpack_var_sequence],
            by simp [as_python_constant, hxs]⟩
      | listVar xs m =>
        cases hxs : as_python_constant_list xs with
        | none => simp [as_python_constant_list, as_python_constant, hxs] at hcs
        | some xsc =>
          have hcs1 : some [PyConst.listV xsc] = some cs := by
            rw [← hcs]; simp [as_python_constant_list, as_python_constant, hxs]
          injection hcs1 with hcs1
          subst hcs1
          have hc1 : some (PyConst.listV xsc) = some c := by rw [← hc]; rfl
          injection hc1 with hc1
          subst hc1
          exact ⟨.listVar xs true, by
            simp [call_function, hgraph, call_handler, _call_iter_tuple_list,
              unpack_var_sequence],
            by simp [as_python_constant, hxs]⟩
      | builtin f =>
        exact ⟨.constant c, by
          simp [call_function, hgraph, call_handler, _call_iter_tuple_list,
            unpack_var_sequence, hhc, constant_fold, hcs, hc], rfl⟩
      | rangeVar a b st =>
        simp [check_constant_args, is_python_constant_list, is_python_constant] at hconst
      | tensor p d t =>
        simp [check_constant_args, is_python_constant_list, is_python_constant] at hconst
    · exact ⟨.constant c, by
        simp [call_function, hgraph, call_handler, hhc, constant_fold, hcs, hc], rfl⟩

/-- C2 witness: `operator.neg` applied to the literal `5` is folded to
the constant `-5`, with the trace state untouched. -/
theorem call_function_constant_fold_value_witness :
    check_constant_args [Variable.constant (.num 5)] = true ∧
    can_constant_fold_through .neg = true ∧
    python_call .neg [.num 5] = some (.num (-5)) ∧
    (∃ v, call_function .neg [.constant (.num 5)] ⟨[]⟩ = (.ok v, ⟨[]⟩) ∧
       as_python_constant v = some (.num (-5))) :=
  ⟨rfl, rfl, rfl,
    call_function_constant_fold_value .neg [.constant (.num 5)] ⟨[]⟩
      [.num 5] (.num (-5)) rfl rfl rfl rfl⟩

/-- C7: an `isinstance` call on a graph-bound tensor with known dtype
metadata is answered as a constant boolean computed from the captured
type/dtype metadata alone -- the proxy identity does not enter the
answer (two tensors differing only in proxy node give the same result). -/
theorem call_isinstance_tensor_uses_metadata (p1 p2 : Nat) (d : DType)
    (ty target : PyType) (s : TraceState) :
    call_function .isinstanceF
        [.tensor p1 (some d) ty, .constant (.typeV target)] s
      = (.ok (.constant (.boolV (tensor_call_isinstance ty d target))), s) ∧
    call_function .isinstanceF
        [.tensor p1 (some d) ty, .constant (.typeV target)] s
      = call_function .isinstanceF
          [.tensor p2 (some d) ty, .constant (.typeV target)] s :=
  ⟨rfl, rfl⟩

/-! ## Frame-interception glue: `convert_frame._convert_frame_assert` -/

/-- The frame-level facts the early checks of `_convert_frame_assert`
consult: membership of the code object in `output_codes`, the
`SkipContext.enabled` re-entrancy flag, the `TORCHDYNAMO_DEBUG_FUNCTION`
environment variable, the code name and whether its filename ends with
`transformers/file_utils.py`, generator-ness, and the per-code cache size
against `config.cache_size_limit`. -/
structure FrameCheckState where
  codeInOutputCodes : Bool
  skipContextEnabled : Bool
  debugFunctionEnv : Option String
  coName : String
  inTransformersFileUtils : Bool
  isGenerator : Bool
  cacheSize : Nat
  cacheSizeLimit : Nat

/-- How the early checks of `_convert_frame_assert` leave the frame:
return `None` (decline, original code runs unmodified), raise the
`Unsupported` signal via `unimplemented`, or proceed to transformation. -/
inductive FrameDecision
  | declineNone
  | raiseUnsupported
  | proceed
deriving DecidableEq

/-- The `TORCHDYNAMO_DEBUG_FUNCTION` filter condition:
`os.environ.get(...) and os.environ.get(...) != code.co_name` (an unset or
empty variable is falsy). -/
def debug_function_excludes (env : Option String) (name : String) : Bool :=
  match env with
  | none => false
  | some f => (f != "") && (f != name)

/-- The early-exit checks of `convert_frame._convert_frame_assert`,
translated in source order: `code in output_codes or SkipContext.enabled`
→ `None`; debug-function filter mismatch → `None`; the
`<genexpr>`-inside-`transformers/file_utils.py` special case → `None`;
`is_generator(code)` → `unimplemented("generator")`;
`cache_size >= config.cache_size_limit` →
`unimplemented("cache_size_limit reached")`; otherwise proceed. -/
def _convert_frame_assert_precheck (s : FrameCheckState) : FrameDecision :=
  if s.codeInOutputCodes || s.skipContextEnabled then .declineNone
  else if debug_function_excludes s.debugFunctionEnv s.coName then .declineNone
  else if (s.coName == "<genexpr>") && s.inTransformersFileUtils then .declineNone
  else if s.isGenerator then .raiseUnsupported
  else if s.cacheSizeLimit ≤ s.cacheSize then .raiseUnsupported
  else .proceed

/-- The decline condition as C3 claims it: already-generated registry,
debug filter, generator, or cache-size limit (and nothing else). -/
def claimed_decline_cases (s : FrameCheckState) : Bool :=
  s.codeInOutputCodes || debug_function_excludes s.debugFunctionEnv s.coName
    || s.isGenerator || decide (s.cacheSizeLimit ≤ s.cacheSize)

/-- The cases in which `_convert_frame_assert` actually returns `None`. -/
def returns_none_cases (s : FrameCheckState) : Bool :=
  s.codeInOutputCodes || s.skipContextEnabled
    || debug_function_excludes s.debugFunctionEnv s.coName
    || ((s.coName == "<genexpr>") && s.inTransformersFileUtils)

/-- The cases in which `_convert_frame_assert` instead raises the
`Unsupported` signal. -/
def raises_unsupported_cases (s : FrameCheckState) : Bool :=
  !(returns_none_cases s) && (s.isGenerator || decide (s.cacheSizeLimit ≤ s.cacheSize))

/-- C3 counterexample: with only the `SkipContext.enabled` re-entrancy
flag set, the glue declines (returns `None`) although none of the four
claimed cases holds; and a generator frame raises the unsupported signal
instead of returning `None` although the claim lists it as a
return-`None` case. -/
theorem convert_frame_precheck_claim_false :
    _convert_frame_assert_precheck ⟨false, true, none, "f", false, false, 0, 64⟩
      = .declineNone ∧
    claimed_decline_cases ⟨false, true, none, "f", false, false, 0, 64⟩ = false ∧
    _convert_frame_assert_precheck ⟨false, false, none, "g", false, true, 0, 64⟩
      = .raiseUnsupported ∧
    claimed_decline_cases ⟨false, false, none, "g", false, true, 0, 64⟩ = true ∧
    FrameDecision.raiseUnsupported ≠ FrameDecision.declineNone := by
  refine ⟨rfl, rfl, rfl, rfl, ?_⟩
  decide

/-- C3 (amended): `_convert_frame_assert` returns `None` exactly when the
code unit is in the already-generated registry or the re-entrancy skip
flag is set, the debug filter excludes the name, or the special-cased
generator expression inside `transformers/file_utils.py` is hit;
generators and a cache size at the configured limit instead raise the
unsupported signal (which the non-asserting wrapper later converts to a
`None` fallback); in all remaining cases conversion proceeds. -/
theorem convert_frame_precheck_decline_cases (s : FrameCheckState) :
    (_convert_frame_assert_precheck s = .declineNone ↔
      returns_none_cases s = true) ∧
    (_convert_frame_assert_precheck s = .raiseUnsupported ↔
      raises_unsupported_cases s = true) ∧
    (_convert_frame_assert_precheck s = .proceed ↔
      (returns_none_cases s = false ∧ raises_unsupported_cases s = false)) := by
  rcases s with ⟨a, b, env, nm, tf, gen, cs, lim⟩
  unfold _convert_frame_assert_precheck raises_unsupported_cases returns_none_cases
  simp only
  cases a <;> cases b <;> cases gen <;> cases tf <;>
    by_cases hd : debug_function_excludes env nm = true <;>
    by_cases hg : (nm == "<genexpr>") = true <;>
    by_cases hc : lim ≤ cs <;>
    simp_all
  all_goals rw [if_neg (by omega : ¬ lim ≤ cs)]
  all_goals simp

/-! ## The restart-analysis retry loop of `_convert_frame_assert` -/

/-- One invocation of the `transform` callback inside
`transform_code_object` either succeeds, raises `RestartAnalysis`, or
raises some other exception. -/
inductive TransformOutcome
  | success
  | restartAnalysis
  | failure

/-- How the `for attempt in itertools.count()` loop ends; the payload
counts how many times `transform_code_object` was invoked. -/
inductive LoopResult
  | converted (calls : Nat)
  | fatalUnsupported (calls : Nat)
  | errored (calls : Nat)
deriving DecidableEq

def LoopResult.calls : LoopResult → Nat
  | .converted n => n
  | .fatalUnsupported n => n
  | .errored n => n

/-- The retry loop of `_convert_frame_assert` from a given attempt index:
`for attempt in itertools.count(): try: transform; break; except
RestartAnalysis: if attempt > 100: unimplemented("100+ RestartAnalysis()
calls")`.  `outcomes n` is what the n-th transformation attempt does. -/
def restart_loop_from (outcomes : Nat → TransformOutcome) (attempt : Nat) :
    LoopResult :=
  match outcomes attempt with
  | .success => .converted (attempt + 1)
  | .failure => .errored (attempt + 1)
  | .restartAnalysis =>
    if 100 < attempt then .fatalUnsupported (attempt + 1)
    else restart_loop_from outcomes (attempt + 1)
termination_by 101 - attempt
decreasing_by omega

/-- The retry loop started at attempt 0, as `_convert_frame_assert` does. -/
def restart_loop (outcomes : Nat → TransformOutcome) : LoopResult :=
  restart_loop_from outcomes 0

theorem restart_loop_from_all_restart (f : Nat → TransformOutcome)
    (hf : ∀ n, f n = .restartAnalysis) :
    ∀ k a, 102 - a ≤ k → a ≤ 101 →
      restart_loop_from f a = .fatalUnsupported 102 := by
  intro k
  induction k with
  | zero => intro a hk ha; omega
  | succ k ih =>
    intro a hk ha
    rw [restart_loop_from, hf]
    by_cases h : 100 < a
    · have : a = 101 := by omega
      subst this
      simp
    · rw [if_neg h]
      exact ih (a + 1) (by omega) (by omega)

theorem restart_loop_from_calls_le (f : Nat → TransformOutcome) :
    ∀ k a, 102 - a ≤ k → a ≤ 101 →
      (restart_loop_from f a).calls ≤ 102 ∧
      (∀ m, restart_loop_from f a = .fatalUnsupported m → m = 102) := by
  intro k
  induction k with
  | zero => intro a hk ha; omega
  | succ k ih =>
    intro a hk ha
    rw [restart_loop_from]
    cases f a with
    | success => exact ⟨by simp [LoopResult.calls]; omega, by intro m h; cases h⟩
    | failure => exact ⟨by simp [LoopResult.calls]; omega, by intro m h; cases h⟩
    | restartAnalysis =>
      by_cases h : 100 < a
      · have : a = 101 := by omega
        subst this
        refine ⟨by simp [LoopResult.calls], ?_⟩
        intro m hm
        simp at hm
        omega
      · rw [if_neg h]
        exact ih (a + 1) (by omega) (by omega)

/-- C4 counterexample: with a transformation that always raises
`RestartAnalysis`, the loop invokes the transformation 102 times (one
initial run plus 101 retries) before failing -- more than the claimed
bound of at most 100 retries (at most 101 invocations). -/
theorem restart_loop_retries_101_times :
    restart_loop (fun _ => .restartAnalysis) = .fatalUnsupported 102 ∧
    102 > 101 :=
  ⟨restart_loop_from_all_restart (fun _ => .restartAnalysis) (fun _ => rfl)
      102 0 (by omega) (by omega),
    by omega⟩

/-- C4 (amended): the restart loop is bounded but off by one from the
claim: a `RestartAnalysis` at 0-based attempt index `a` is retried while
`a ≤ 100` (up to 101 retries, hence at most 102 transformation runs), and
a restart at attempt 101 terminates tracing for the code unit with the
fatal `unimplemented("100+ RestartAnalysis() calls")` signal; the loop
always terminates. -/
theorem restart_loop_bounded (outcomes : Nat → TransformOutcome) :
    (restart_loop outcomes).calls ≤ 102 ∧
    (∀ m, restart_loop outcomes = .fatalUnsupported m → m = 102) :=
  restart_loop_from_calls_le outcomes 102 0 (by omega) (by omega)

/-- C4 witness: the bound applied to the always-restarting
transformation: its call count is within 102 and its fatal stop indeed
happened at the 102nd invocation. -/
theorem restart_loop_bounded_witness :
    (restart_loop (fun _ => .restartAnalysis)).calls ≤ 102 ∧
    (102 : Nat) = 102 :=
  ⟨(restart_loop_bounded (fun _ => .restartAnalysis)).1,
    (restart_loop_bounded (fun _ => .restartAnalysis)).2 102
      (restart_loop_from_all_restart (fun _ => .restartAnalysis) (fun _ => rfl)
        102 0 (by omega) (by omega))⟩

/-! ## The non-asserting wrapper `convert_frame._convert_frame` -/

/-- What one call of the wrapped `inner_convert` does: return normally
(with a guarded-code handle or `None`), raise the `Unsupported` signal,
or raise any other exception. -/
inductive InnerOutcome (α : Type)
  | ret (r : Option α)
  | unsupportedExc
  | otherExc

/-- The `counters["frames"]` diagnostic counters. -/
structure FrameCounters where
  total : Nat
  ok : Nat
deriving DecidableEq

/-- Model of `convert_frame._convert_frame`: increment `counters["frames"]
["total"]`, run `inner_convert`; on normal return increment
`counters["frames"]["ok"]` and return the result; on `Unsupported`
silently return `None`; on any other exception print diagnostics and
return `None`. -/
def _convert_frame (α : Type) (o : InnerOutcome α) (c : FrameCounters) :
    Option α × FrameCounters :=
  let total1 := c.total + 1
  match o with
  | .ret r => (r, ⟨total1, c.ok + 1⟩)
  | .unsupportedExc => (none, ⟨total1, c.ok⟩)
  | .otherExc => (none, ⟨total1, c.ok⟩)

/-- C5: the non-asserting wrapper returns `None` without propagating when
the inner conversion raises the unsupported signal, returns `None` (after
logging) for any other exception, increments the total-frames counter on
every call, and increments the ok counter exactly on the (normal-return)
success path. -/
theorem convert_frame_counters_and_fallback (α : Type) (c : FrameCounters)
    (r : Option α) :
    _convert_frame α (.ret r) c = (r, ⟨c.total + 1, c.ok + 1⟩) ∧
    _convert_frame α .unsupportedExc c = (none, ⟨c.total + 1, c.ok⟩) ∧
    _convert_frame α .otherExc c = (none, ⟨c.total + 1, c.ok⟩) :=
  ⟨rfl, rfl, rfl⟩

/-! ## `convert_frame.wrap_convert_context` -/

/-- The process-global state the context wrapper saves and restores:
`torch.is_grad_enabled()`, the RNG state
(`torch.random.get_rng_state()`), and the monkey-patchable
`torch.fx.graph_module._forward_from_src` hook (identified by an opaque
id); `scratch` stands for all remaining global state the wrapped call may
mutate freely. -/
structure GlobalTorchState where
  gradMode : Bool
  rngState : Nat
  fwdFromSrc : Nat
  scratch : Nat

/-- The id of the `fx_forward_from_src_skip_result` monkey-patch hook
installed for the duration of the conversion. -/
def fx_forward_from_src_skip_result_id : Nat := 1

/-- Result of the wrapped function: normal return or exception; in either
case the state it left behind is threaded through to the `finally`
block. -/
inductive ExcOutcome (α : Type)
  | ok (a : α)
  | exc

/-- Model of `convert_frame.wrap_convert_context`: save the prior gradient mode,
RNG state and `_forward_from_src` hook, install
`fx_forward_from_src_skip_result`, run the wrapped function, and in a
`finally` block restore all three saved values -- on the normal and the
exceptional path alike (both are `ExcOutcome` values here, treated
identically). -/
def wrap_convert_context (α : Type)
    (fn : GlobalTorchState → ExcOutcome α × GlobalTorchState)
    (s : GlobalTorchState) : ExcOutcome α × GlobalTorchState :=
  let prior_grad_mode := s.gradMode
  let rng_state := s.rngState
  let prior_fwd_from_src := s.fwdFromSrc
  let s1 : GlobalTorchState :=
    ⟨s.gradMode, s.rngState, fx_forward_from_src_skip_result_id, s.scratch⟩
  let rs := fn s1
  (rs.1, ⟨prior_grad_mode, rng_state, prior_fwd_from_src, rs.2.scratch⟩)

/-- C6: whatever the wrapped conversion does to the global state, and
whether it returns normally or raises, the context wrapper restores the
gradient-tracking mode, the RNG state, and the monkey-patched
forward-from-source hook to their prior values, and faithfully passes the
wrapped outcome through (the wrapped call having seen the skip hook
installed). -/
theorem wrap_convert_context_restores (α : Type)
    (fn : GlobalTorchState → ExcOutcome α × GlobalTorchState)
    (s : GlobalTorchState) :
    (wrap_convert_context α fn s).2.gradMode = s.gradMode ∧
    (wrap_convert_context α fn s).2.rngState = s.rngState ∧
    (wrap_convert_context α fn s).2.fwdFromSrc = s.fwdFromSrc ∧
    (wrap_convert_context α fn s).1 =
      (fn ⟨s.gradMode, s.rngState, fx_forward_from_src_skip_result_id,
        s.scratch⟩).1 :=
  ⟨rfl, rfl, rfl, rfl⟩

/-! ## Matrices and graph execution for the `testing.standard_test` scenarios -/

/-- A runtime tensor of the test scenarios: a matrix of rationals (the
test harness compares with atol 1e-4; rationals model the values
exactly). -/
def Mat := List (List ℚ)

def mat_shape (m : Mat) : Nat × Nat := (m.length, (m.headD []).length)

def mat_sub (a b : Mat) : Mat :=
  List.zipWith (fun r1 r2 => List.zipWith (fun x y => x - y) r1 r2) a b

def mat_add_scalar (a : Mat) (q : ℚ) : Mat :=
  a.map (fun r => r.map (fun x => x + q))

/-- Model of `tests.test_functions.constant3`: `constant3(a, b) = a - b + (1.0 + 2)`
executed directly (uncompiled). -/
def constant3 (a b : Mat) : Mat := mat_add_scalar (mat_sub a b) 3

/-- Modelled from the spec: execution of one captured FX call node by the
compiled artifact of the no-op backend (`CompileCounter` returns
`gm.forward`, i.e. the captured graph itself); `torch.fx` execution is
not part of this repository.  Only the ops the scenarios capture are
given semantics. -/
def eval_call_node (op : GOp) (args : List GArg) (env : List Mat) : Option Mat :=
  match op, args with
  | .bfn .sub, [.node i, .node j] =>
    match env[i]?, env[j]? with
    | some x, some y => some (mat_sub x y)
    | _, _ => none
  | .bfn .add, [.node i, .const (.num q)] =>
    (env[i]?).map (fun x => mat_add_scalar x q)
  | _, _ => none

/-- Run a captured graph: placeholders consume the call inputs in order,
call nodes evaluate against the environment of earlier node values. -/
def eval_graph_nodes : List GraphNode → List Mat → List Mat → Option (List Mat)
  | [], _, env => some env
  | .placeholder :: rest, inp :: inps, env => eval_graph_nodes rest inps (env ++ [inp])
  | .placeholder :: _, [], _ => none
  | .call op args :: rest, inps, env =>
    match eval_call_node op args env with
    | some m => eval_graph_nodes rest inps (env ++ [m])
    | none => none

/-- Execute a compiled graph end to end and read off its output node. -/
def run_graph (nodes : List GraphNode) (out : Nat) (inputs : List Mat) :
    Option Mat :=
  match eval_graph_nodes nodes inputs [] with
  | some env => env[out]?
  | none => none

/-- Modelled from the spec: the symbolic interpreter drives
`a - b + (1.0 + 2)` by dispatching both binary ops through the builtin
model (spec section 4.2, transition rule); `symbolic_convert.py` is not
under `src/`.  Placeholders 0 and 1 stand for the two argument tensors;
the subtraction hits the graph branch, `1.0 + 2` is folded to a constant,
and the final addition of tensor and constant hits the graph branch. -/
def trace_constant3 : CallResult × TraceState :=
  let s0 : TraceState := ⟨[.placeholder, .placeholder]⟩
  let a : Variable := .tensor 0 (some .float32) .tensorT
  let b : Variable := .tensor 1 (some .float32) .tensorT
  match call_function .sub [a, b] s0 with
  | (.ok t, s1) =>
    match call_function .add [.constant (.num 1), .constant (.num 2)] s1 with
    | (.ok c, s2) => call_function .add [t, c] s2
    | r => r
  | r => r

/-- The graph the `constant3` trace produces. -/
def constant3_graph : List GraphNode :=
  [.placeholder, .placeholder,
   .call (.bfn .sub) [.node 0, .node 1],
   .call (.bfn .add) [.node 2, .const (.num 3)]]

theorem trace_constant3_eq :
    trace_constant3 = (.ok (.tensor 3 (some .float32) .tensorT),
      ⟨constant3_graph⟩) := by
  have h3 : (1 : ℚ) + 2 = 3 := by norm_num
  simp [trace_constant3, call_function, call_handler, call_method_binary,
    const_call_method_binary, insert_in_graph_branch, emit_graph_node,
    as_proxy_args, as_proxy_arg, create_proxy, result_dtype, check_constant_args,
    is_python_constant_list, is_python_constant, tensor_args, List.any_cons,
    is_tensor_variable, can_insert_in_graph, can_constant_fold_through,
    constant3_graph, h3]

theorem run_constant3_graph (a b : Mat) :
    run_graph constant3_graph 3 [a, b] = some (constant3 a b) := by
  simp [run_graph, eval_graph_nodes, eval_call_node, constant3_graph, constant3]

/-! ## The guard/cache machinery of the frame hook (modelled from the spec) -/

/-- Modelled from the spec: one cache entry of the per-code-unit cache --
the guard set a reuse must re-validate (here the recorded
shapes of the two tensor arguments, the facts the tensor guards check)
and the compiled artifact (graph plus output node)
(spec section 3 "Cache entry", section 4.4); `guards.py` and
`_eval_frame.c` are not under `src/`. -/
structure CacheEntry where
  guardShapeA : Nat × Nat
  guardShapeB : Nat × Nat
  graph : List GraphNode
  out : Nat

/-- The frame-hook state for one code unit: the ordered cache entries and
the no-op backend compile counter (`CompileCounter.frame_count`). -/
structure EvalFrameState where
  entries : List CacheEntry
  frame_count : Nat

/-- A guard set is satisfied iff every member holds (spec section 4.4):
here, the recorded argument shapes match the new call. -/
def guards_match (e : CacheEntry) (a b : Mat) : Bool :=
  decide (e.guardShapeA = mat_shape a) && decide (e.guardShapeB = mat_shape b)

/-- Modelled from the spec: the frame hook for `constant3` under
`eval_frame.optimize(convert_frame_assert(CompileCounter()))` -- evaluate
guard sets in insertion order; on the first hit run the cached artifact
without re-tracing; on total miss trace the function, count one compile,
install the new entry, and run the fresh artifact (spec sections 3, 4.4
and 8); the interception machinery is not under `src/`. -/
def call_constant3_optimized (st : EvalFrameState) (a b : Mat) :
    Option Mat × EvalFrameState :=
  match st.entries.find? (fun e => guards_match e a b) with
  | some e => (run_graph e.graph e.out [a, b], st)
  | none =>
    let g := (trace_constant3.2).nodes
    let entry : CacheEntry := ⟨mat_shape a, mat_shape b, g, 3⟩
    (run_graph g 3 [a, b], ⟨st.entries ++ [entry], st.frame_count + 1⟩)

/-- Elementwise absolute-tolerance comparison of two matrices. -/
def mat_allclose (atol : ℚ) (a b : Mat) : Bool :=
  (a.length == b.length) &&
  (List.zip a b).all (fun rr =>
    (rr.1.length == rr.2.length) &&
    (List.zip rr.1 rr.2).all (fun xy => decide (|xy.1 - xy.2| ≤ atol)))

def opt_allclose (atol : ℚ) (x : Option Mat) (y : Mat) : Bool :=
  match x with
  | some m => mat_allclose atol m y
  | none => false

theorem row_allclose_self (atol : ℚ) (h : 0 ≤ atol) (r : List ℚ) :
    (List.zip r r).all (fun xy => decide (|xy.1 - xy.2| ≤ atol)) = true := by
  induction r with
  | nil => rfl
  | cons x r ih =>
    simp only [List.zip_cons_cons, List.all_cons, Bool.and_eq_true]
    exact ⟨by simpa using h, ih⟩

theorem rows_allclose_self (atol : ℚ) (h : 0 ≤ atol) (m : Mat) :
    (List.zip m m).all (fun rr =>
      (rr.1.length == rr.2.length) &&
      (List.zip rr.1 rr.2).all (fun xy => decide (|xy.1 - xy.2| ≤ atol))) = true := by
  induction m with
  | nil => rfl
  | cons r rest ih =>
    simp only [List.zip_cons_cons, List.all_cons, Bool.and_eq_true,
      beq_self_eq_true, true_and]
    exact ⟨row_allclose_self atol h r, by simpa using ih⟩

theorem mat_allclose_self (atol : ℚ) (h : 0 ≤ atol) (m : Mat) :
    mat_allclose atol m m = true := by
  simp only [mat_allclose, beq_self_eq_true, Bool.true_and]
  exact rows_allclose_self atol h m

theorem call_constant3_optimized_miss (st : EvalFrameState) (a b : Mat)
    (hm : st.entries.find? (fun e => guards_match e a b) = none) :
    call_constant3_optimized st a b =
      (some (constant3 a b),
       ⟨st.entries ++ [⟨mat_shape a, mat_shape b, constant3_graph, 3⟩],
        st.frame_count + 1⟩) := by
  have hg : (trace_constant3.2).nodes = constant3_graph := by
    rw [trace_constant3_eq]
  unfold call_constant3_optimized
  rw [hm]
  simp [hg, run_constant3_graph]

theorem call_constant3_optimized_hit (st : EvalFrameState) (a b : Mat)
    (e : CacheEntry)
    (hm : st.entries.find? (fun e2 => guards_match e2 a b) = some e) :
    call_constant3_optimized st a b = (run_graph e.graph e.out [a, b], st) := by
  unfold call_constant3_optimized
  rw [hm]

/-- The four calls of the `standard_test` scenario for `constant3`:
two distinct input pairs, each called twice, starting from an empty
cache and a zeroed compile counter. -/
def c8_r1 (a1 b1 : Mat) : Option Mat × EvalFrameState :=
  call_constant3_optimized ⟨[], 0⟩ a1 b1

def c8_r2 (a1 b1 a2 b2 : Mat) : Option Mat × EvalFrameState :=
  call_constant3_optimized (c8_r1 a1 b1).2 a2 b2

def c8_r3 (a1 b1 a2 b2 : Mat) : Option Mat × EvalFrameState :=
  call_constant3_optimized (c8_r2 a1 b1 a2 b2).2 a1 b1

def c8_r4 (a1 b1 a2 b2 : Mat) : Option Mat × EvalFrameState :=
  call_constant3_optimized (c8_r3 a1 b1 a2 b2).2 a2 b2

/-- C8: for `fn(a,b) = a - b + (1.0 + 2)` traced with the no-op compiler
backend, the four-call scenario of `testing.standard_test` (two distinct
10x10 pairs, each called twice) produces exactly one trace event; every
traced result equals the direct call exactly (hence within absolute
tolerance 1e-4); and a call whose inputs satisfy an existing cached guard
set leaves the whole frame state (in particular the trace counter)
unchanged. -/
theorem standard_test_constant3 (a1 b1 a2 b2 : Mat)
    (h1 : mat_shape a1 = (10, 10)) (h2 : mat_shape b1 = (10, 10))
    (h3 : mat_shape a2 = (10, 10)) (h4 : mat_shape b2 = (10, 10))
    (st : EvalFrameState) (a b : Mat) (e : CacheEntry)
    (he : st.entries.find? (fun e2 => guards_match e2 a b) = some e) :
    (c8_r1 a1 b1).1 = some (constant3 a1 b1) ∧
    (c8_r2 a1 b1 a2 b2).1 = some (constant3 a2 b2) ∧
    (c8_r3 a1 b1 a2 b2).1 = some (constant3 a1 b1) ∧
    (c8_r4 a1 b1 a2 b2).1 = some (constant3 a2 b2) ∧
    opt_allclose (1/10000) (c8_r1 a1 b1).1 (constant3 a1 b1) = true ∧
    opt_allclose (1/10000) (c8_r2 a1 b1 a2 b2).1 (constant3 a2 b2) = true ∧
    opt_allclose (1/10000) (c8_r3 a1 b1 a2 b2).1 (constant3 a1 b1) = true ∧
    opt_allclose (1/10000) (c8_r4 a1 b1 a2 b2).1 (constant3 a2 b2) = true ∧
    (c8_r4 a1 b1 a2 b2).2.frame_count = 1 ∧
    (call_constant3_optimized st a b).2 = st := by
  have hq : (0 : ℚ) ≤ 1/10000 := by norm_num
  have hst1 : c8_r1 a1 b1 = (some (constant3 a1 b1),
      ⟨[⟨mat_shape a1, mat_shape b1, constant3_graph, 3⟩], 1⟩) := by
    unfold c8_r1
    rw [call_constant3_optimized_miss ⟨[], 0⟩ a1 b1 rfl]
    simp
  have hfind2 : (EvalFrameState.mk
        [⟨mat_shape a1, mat_shape b1, constant3_graph, 3⟩] 1).entries.find?
      (fun e2 => guards_match e2 a2 b2)
      = some ⟨mat_shape a1, mat_shape b1, constant3_graph, 3⟩ := by
    simp [List.find?, guards_match, h1, h2, h3, h4]
  have hst2 : c8_r2 a1 b1 a2 b2 = (some (constant3 a2 b2),
      ⟨[⟨mat_shape a1, mat_shape b1, constant3_graph, 3⟩], 1⟩) := by
    unfold c8_r2
    rw [hst1]
    rw [call_constant3_optimized_hit _ a2 b2 _ hfind2]
    simp [run_constant3_graph]
  have hfind3 : (EvalFrameState.mk
        [⟨mat_shape a1, mat_shape b1, constant3_graph, 3⟩] 1).entries.find?
      (fun e2 => guards_match e2 a1 b1)
      = some ⟨mat_shape a1, mat_shape b1, constant3_graph, 3⟩ := by
    simp [List.find?, guards_match]
  have hst3 : c8_r3 a1 b1 a2 b2 = (some (constant3 a1 b1),
      ⟨[⟨mat_shape a1, mat_shape b1, constant3_graph, 3⟩], 1⟩) := by
    unfold c8_r3
    rw [hst2]
    rw [call_constant3_optimized_hit _ a1 b1 _ hfind3]
    simp [run_constant3_graph]
  have hst4 : c8_r4 a1 b1 a2 b2 = (some (constant3 a2 b2),
      ⟨[⟨mat_shape a1, mat_shape b1, constant3_graph, 3⟩], 1⟩) := by
    unfold c8_r4
    rw [hst3]
    rw [call_constant3_optimized_hit _ a2 b2 _ hfind2]
    simp [run_constant3_graph]
  refine ⟨by rw [hst1], by rw [hst2], by rw [hst3], by rw [hst4],
    ?_, ?_, ?_, ?_, by rw [hst4], by rw [call_constant3_optimized_hit st a b e he]⟩
  · rw [hst1]; exact mat_allclose_self _ hq _
  · rw [hst2]; exact mat_allclose_self _ hq _
  · rw [hst3]; exact mat_allclose_self _ hq _
  · rw [hst4]; exact mat_allclose_self _ hq _

/-- A 10x10 matrix of zeros and one of ones, concrete inputs for the
scenario. -/
def zeros10 : Mat := List.replicate 10 (List.replicate 10 (0 : ℚ))

def ones10 : Mat := List.replicate 10 (List.replicate 10 (1 : ℚ))

/-- C8 witness: the scenario instantiated at two concrete distinct 10x10
input pairs and a concrete one-entry cache state. -/
theorem standard_test_constant3_witness :
    mat_shape zeros10 = (10, 10) ∧
    mat_shape ones10 = (10, 10) ∧
    (c8_r1 zeros10 ones10).1 = some (constant3 zeros10 ones10) ∧
    (c8_r4 zeros10 ones10 ones10 zeros10).1 = some (constant3 ones10 zeros10) ∧
    (c8_r4 zeros10 ones10 ones10 zeros10).2.frame_count = 1 ∧
    (call_constant3_optimized
        ⟨[⟨(10, 10), (10, 10), constant3_graph, 3⟩], 1⟩ zeros10 zeros10).2
      = ⟨[⟨(10, 10), (10, 10), constant3_graph, 3⟩], 1⟩ := by
  have h := standard_test_constant3 zeros10 ones10 ones10 zeros10
    rfl rfl rfl rfl
    ⟨[⟨(10, 10), (10, 10), constant3_graph, 3⟩], 1⟩ zeros10 zeros10
    ⟨(10, 10), (10, 10), constant3_graph, 3⟩ rfl
  exact ⟨rfl, rfl, h.1, h.2.2.2.1, h.2.2.2.2.2.2.2.2.1, h.2.2.2.2.2.2.2.2.2⟩

/-! ## The branch-sensitivity scenario (`test_boolarg`) -/

/-- Modelled from the spec: the interpreter traces the taken branch of
`boolarg(aa, bb, flag)` -- `aa - bb` when the flag is true, `bb - aa`
when it is false -- dispatching the subtraction through the builtin
model, and the decision point forces a guard on the boolean value (spec
sections 4.2 and 8); `symbolic_convert.py` is not under `src/`. -/
def trace_boolarg (flag : Bool) : CallResult × TraceState :=
  let s0 : TraceState := ⟨[.placeholder, .placeholder]⟩
  let a : Variable := .tensor 0 (some .float32) .tensorT
  let b : Variable := .tensor 1 (some .float32) .tensorT
  if flag then call_function .sub [a, b] s0 else call_function .sub [b, a] s0

/-- The graph each branch of `boolarg` traces to. -/
def boolarg_graph (flag : Bool) : List GraphNode :=
  if flag then
    [.placeholder, .placeholder, .call (.bfn .sub) [.node 0, .node 1]]
  else
    [.placeholder, .placeholder, .call (.bfn .sub) [.node 1, .node 0]]

theorem trace_boolarg_eq (flag : Bool) :
    trace_boolarg flag =
      (.ok (.tensor 2 (some .float32) .tensorT), ⟨boolarg_graph flag⟩) := by
  cases flag <;>
    simp [trace_boolarg, boolarg_graph, call_function, insert_in_graph_branch,
      emit_graph_node, as_proxy_args, as_proxy_arg, create_proxy, result_dtype,
      tensor_args, is_tensor_variable, can_insert_in_graph, check_constant_args,
      is_python_constant_list, is_python_constant]

theorem run_boolarg_graph (a b : Mat) :
    run_graph (boolarg_graph true) 2 [a, b] = some (mat_sub a b) ∧
    run_graph (boolarg_graph false) 2 [a, b] = some (mat_sub b a) := by
  constructor <;>
    simp [run_graph, eval_graph_nodes, eval_call_node, boolarg_graph]

/-- Modelled from the spec: a cache entry for `boolarg` additionally
records the constant-equality guard on the boolean argument that drove
the branch (spec section 4.2: a value whose truthiness decides a branch
must be guarded). -/
structure BoolCacheEntry where
  guardShapeA : Nat × Nat
  guardShapeB : Nat × Nat
  guardFlag : Bool
  graph : List GraphNode
  out : Nat

structure BoolFrameState where
  entries : List BoolCacheEntry
  frame_count : Nat

def bool_guards_match (e : BoolCacheEntry) (a b : Mat) (flag : Bool) : Bool :=
  decide (e.guardShapeA = mat_shape a) && decide (e.guardShapeB = mat_shape b)
    && (e.guardFlag == flag)

/-- Modelled from the spec: the frame hook for `boolarg` -- first guard
hit reuses the cached artifact, a total miss traces the taken branch,
counts one compile and installs the entry (spec sections 3, 4.4, 8). -/
def call_boolarg_optimized (st : BoolFrameState) (a b : Mat) (flag : Bool) :
    Option Mat × BoolFrameState :=
  match st.entries.find? (fun e => bool_guards_match e a b flag) with
  | some e => (run_graph e.graph e.out [a, b], st)
  | none =>
    let g := ((trace_boolarg flag).2).nodes
    let entry : BoolCacheEntry := ⟨mat_shape a, mat_shape b, flag, g, 2⟩
    (run_graph g 2 [a, b], ⟨st.entries ++ [entry], st.frame_count + 1⟩)

/-- The `True, False, True` call sequence from an empty cache. -/
def c9_r1 (a b : Mat) : Option Mat × BoolFrameState :=
  call_boolarg_optimized ⟨[], 0⟩ a b true

def c9_r2 (a b : Mat) : Option Mat × BoolFrameState :=
  call_boolarg_optimized (c9_r1 a b).2 a b false

def c9_r3 (a b : Mat) : Option Mat × BoolFrameState :=
  call_boolarg_optimized (c9_r2 a b).2 a b true

/-- C9: calling the boolean-branching function with `True`, `False`,
`True` produces exactly two trace events -- one per branch value, with
two distinct cached artifacts -- and the third call reuses the cached
artifact of the first, leaving the trace count at 2; every call computes
the branch the flag selects. -/
theorem boolarg_branch_sensitivity (a b : Mat) :
    (c9_r1 a b).1 = some (mat_sub a b) ∧
    (c9_r2 a b).1 = some (mat_sub b a) ∧
    (c9_r3 a b).1 = some (mat_sub a b) ∧
    (c9_r2 a b).2.frame_count = 2 ∧
    (c9_r3 a b).2 = (c9_r2 a b).2 ∧
    (c9_r3 a b).2.entries.map (fun e => e.guardFlag) = [true, false] ∧
    boolarg_graph true ≠ boolarg_graph false := by
  have hgT : ((trace_boolarg true).2).nodes = boolarg_graph true := by
    rw [trace_boolarg_eq]
  have hgF : ((trace_boolarg false).2).nodes = boolarg_graph false := by
    rw [trace_boolarg_eq]
  have hst1 : c9_r1 a b = (some (mat_sub a b),
      ⟨[⟨mat_shape a, mat_shape b, true, boolarg_graph true, 2⟩], 1⟩) := by
    unfold c9_r1 call_boolarg_optimized
    simp [hgT, (run_boolarg_graph a b).1]
  have hst2 : c9_r2 a b = (some (mat_sub b a),
      ⟨[⟨mat_shape a, mat_shape b, true, boolarg_graph true, 2⟩,
        ⟨mat_shape a, mat_shape b, false, boolarg_graph false, 2⟩], 2⟩) := by
    unfold c9_r2 call_boolarg_optimized
    rw [hst1]
    simp [List.find?, bool_guards_match, hgF, (run_boolarg_graph a b).2]
  have hst3 : c9_r3 a b = (some (mat_sub a b),
      ⟨[⟨mat_shape a, mat_shape b, true, boolarg_graph true, 2⟩,
        ⟨mat_shape a, mat_shape b, false, boolarg_graph false, 2⟩], 2⟩) := by
    unfold c9_r3 call_boolarg_optimized
    rw [hst2]
    simp [List.find?, bool_guards_match, (run_boolarg_graph a b).1]
  refine ⟨by rw [hst1], by rw [hst2], by rw [hst3], by rw [hst2],
    by rw [hst3, hst2], by rw [hst3]; rfl, ?_⟩
  simp [boolarg_graph]

/-! ## The correctness predicate `testing.same` -/

/-- A runtime python value as `testing.same` receives it: (nested) lists
and tuples, tensors (flattened to their rationals), numbers, booleans,
`None`, and objects of any other type (which `same` rejects with a
`RuntimeError`; the `SquashedNormal` / model-output special cases concern
types outside the modelled fragment). -/
inductive RVal
  | list (xs : List RVal)
  | tuple (xs : List RVal)
  | tensor (data : List ℚ)
  | num (q : ℚ)
  | boolV (b : Bool)
  | noneV
  | other (tag : String)

/-- Model of `torch.allclose(a, b, atol=1e-4, rtol=1e-4)` on flattened tensors:
elementwise `|a - b| <= atol + rtol * |b|`; differing sizes are an
error. -/
def allclose_q (xs ys : List ℚ) : Option Bool :=
  if xs.length = ys.length then
    some ((List.zip xs ys).all
      (fun p => decide (|p.1 - p.2| ≤ 1/10000 + (1/10000) * |p.2|)))
  else none

/-- Python `==` between the scalar kinds `same` handles (`int`, `float`,
`NoneType`, `bool`); a boolean equals its numeric value, mixed kinds are
unequal.  (Scalar-versus-tensor `==`, which in python yields a tensor, is
outside the modelled fragment and modelled as plain inequality.) -/
def scalar_eq : RVal → RVal → Bool
  | .num a, .num b => decide (a = b)
  | .num a, .boolV b => decide (a = (if b then (1 : ℚ) else 0))
  | .boolV a, .num b => decide ((if a then (1 : ℚ) else 0) = b)
  | .boolV a, .boolV b => a == b
  | .noneV, .noneV => true
  | _, _ => false

mutual
/-- Model of `testing.same(a, b)`, translated branch by branch: sequences compare
by `all(same(ai, bi) for ai, bi in zip(a, b))` (with the `assert
isinstance(b, (list, tuple))`), tensors by `torch.allclose(..., atol=1e-4,
rtol=1e-4)` (with the `assert isinstance(b, torch.Tensor)`), scalars and
`None` by `==`, and any other type raises `RuntimeError`; `none` models a
raised exception. -/
def same : RVal → RVal → Option Bool
  | .list as, .list bs => same_zipped as bs
  | .list as, .tuple bs => same_zipped as bs
  | .list _, _ => none
  | .tuple as, .list bs => same_zipped as bs
  | .tuple as, .tuple bs => same_zipped as bs
  | .tuple _, _ => none
  | .tensor xs, .tensor ys => allclose_q xs ys
  | .tensor _, _ => none
  | .num a, b => some (scalar_eq (.num a) b)
  | .boolV a, b => some (scalar_eq (.boolV a) b)
  | .noneV, b => some (scalar_eq .noneV b)
  | .other _, _ => none

/-- Model of `all(same(ai, bi) for ai, bi in zip(a, b))`: `zip` truncates at the
shorter sequence, `all` stops at the first `False` (so a later exception
is not raised), and an exception from an element comparison
propagates. -/
def same_zipped : List RVal → List RVal → Option Bool
  | [], _ => some true
  | _ :: _, [] => some true
  | a :: as, b :: bs =>
    match same a b with
    | none => none
    | some false => some false
    | some true => same_zipped as bs
end

theorem same_zipped_append_right (xs extra : List RVal)
    (hself : ∀ x ∈ xs, same x x = some true) :
    same_zipped xs (xs ++ extra) = some true := by
  induction xs with
  | nil => rfl
  | cons x rest ih =>
    simp only [List.cons_append, same_zipped]
    rw [hself x (by simp)]
    exact ih (fun y hy => hself y (by simp [hy]))

theorem same_zipped_append_left (xs extra : List RVal)
    (hself : ∀ x ∈ xs, same x x = some true) :
    same_zipped (xs ++ extra) xs = some true := by
  induction xs with
  | nil => cases extra <;> rfl
  | cons x rest ih =>
    simp only [List.cons_append, same_zipped]
    rw [hself x (by simp)]
    exact ih (fun y hy => hself y (by simp [hy]))

/-- C10: `same` compares lists and tuples only up to the length of the
shorter sequence: whenever one sequence extends the other (and the shared
elements compare equal to themselves), `same` returns `True` although the
lengths differ -- so `same` on sequences of unequal length does not imply
equality of results. -/
theorem same_truncates_at_shorter (xs extra : List RVal)
    (hself : ∀ x ∈ xs, same x x = some true) (hextra : extra ≠ []) :
    same (.list xs) (.list (xs ++ extra)) = some true ∧
    same (.list (xs ++ extra)) (.list xs) = some true ∧
    same (.tuple xs) (.tuple (xs ++ extra)) = some true ∧
    same (.tuple (xs ++ extra)) (.tuple xs) = some true ∧
    (xs ++ extra).length ≠ xs.length := by
  have hr := same_zipped_append_right xs extra hself
  have hl := same_zipped_append_left xs extra hself
  have hlen : (xs ++ extra).length ≠ xs.length := by
    have := List.length_pos.mpr hextra
    simp only [List.length_append]
    omega
  exact ⟨by simpa [same] using hr, by simpa [same] using hl,
    by simpa [same] using hr, by simpa [same] using hl, hlen⟩

/-- C10 witness: `same([None], [None, None])` is `True` in both orders
although the lengths 1 and 2 differ. -/
theorem same_truncates_at_shorter_witness :
    same (.list [.noneV]) (.list ([.noneV] ++ [.noneV])) = some true ∧
    same (.list ([.noneV] ++ [.noneV])) (.list [.noneV]) = some true ∧
    same (.tuple [.noneV]) (.tuple ([.noneV] ++ [.noneV])) = some true ∧
    same (.tuple ([.noneV] ++ [.noneV])) (.tuple [.noneV]) = some true ∧
    ([RVal.noneV] ++ [RVal.noneV]).length ≠ [RVal.noneV].length :=
  same_truncates_at_shorter [.noneV] [.noneV]
    (fun x hx => by
      simp only [List.mem_singleton] at hx
      subst hx
      rfl)
    (by simp)

end TD
